import Mathlib

/-!
Verification development for the TRECO race-condition orchestrator.

This file gives a shallow embedding of the components of the repository that
the checked properties concern: the response-data extractors (regex and
JSON-path), the connection strategies (preconnect, lazy, pooled) and their
factory, the CLI exit-code logic, and the metrics registry.  Pure functions
are translated into Lean functions; stateful classes become explicit state
passing on structure types; fallible code returns `Except` or `Option`.
Definitions follow the Python sources under `src/treco`; the few pieces of
the repository whose sources are absent (the JSON-path extractor body, the
HTTP client session factory, the metrics timer and counter classes) are
modelled from the specification and marked as such in their doc comments.
-/

namespace Treco

/-- Python runtime values as produced by the extractors and by JSON decoding:
booleans, integers, floats (abstracted by their accepted literal text, since
the IEEE bit-level value is irrelevant to the properties here), strings,
lists and dicts. -/
inductive PyVal : Type
  | bool (b : Bool)
  | int (n : Int)
  | float (lit : String)
  | str (s : String)
  | list (xs : List PyVal)
  | dict (kvs : List (String × PyVal))

/-- Tail of a digit run in Python numeric literal syntax: digits with single
underscores allowed between digits, accumulating the value. -/
def pyDigitsAux : List Char → Nat → Option Nat
  | [], acc => some acc
  | ['_'], _ => none
  | '_' :: c :: t, acc =>
      if c.isDigit then pyDigitsAux t (acc * 10 + (c.toNat - 48)) else none
  | c :: t, acc =>
      if c.isDigit then pyDigitsAux t (acc * 10 + (c.toNat - 48)) else none

/-- Parse a nonempty Python digit run (no leading underscore) to its value. -/
def pyParseDigits : List Char → Option Nat
  | [] => none
  | c :: t => if c.isDigit then pyDigitsAux t (c.toNat - 48) else none

/-- Python `str.strip()` on the character list: drop whitespace from both
ends. -/
def pyStrip (s : String) : List Char :=
  ((s.data.dropWhile Char.isWhitespace).reverse.dropWhile Char.isWhitespace).reverse

/-- Python `str.lower()` (restricted to the ASCII case mapping). -/
def pyLower (s : String) : String :=
  String.mk (s.data.map Char.toLower)

/-- Embedding of the Python built-in `int(str)`: optional surrounding
whitespace, optional sign, then a digit run with optional single underscores
between digits.  Returns `none` where `int()` raises `ValueError`. -/
def pyInt? (s : String) : Option Int :=
  match pyStrip s with
  | [] => none
  | c :: rest =>
    if c = '+' then (pyParseDigits rest).map Int.ofNat
    else if c = '-' then (pyParseDigits rest).map (fun n => -(n : Int))
    else (pyParseDigits (c :: rest)).map Int.ofNat

/-- Recognizer for the tail of a Python digit run (underscores singly between
digits), Boolean form. -/
def pyDigitsTail : List Char → Bool
  | [] => true
  | ['_'] => false
  | '_' :: c :: t => c.isDigit && pyDigitsTail t
  | c :: t => c.isDigit && pyDigitsTail t

/-- Recognizer for a nonempty Python digit run. -/
def pyDigitsOk (cs : List Char) : Bool :=
  match cs with
  | [] => false
  | c :: t => c.isDigit && pyDigitsTail t

/-- A fractional or integral part of a float literal may be empty. -/
def pyFracOk (cs : List Char) : Bool := cs.isEmpty || pyDigitsOk cs

/-- Mantissa of a Python float literal: digits, optionally with one dot,
with at least one digit present on some side of the dot. -/
def pyMantissaOk (cs : List Char) : Bool :=
  match cs.findIdx? (fun c => c = '.') with
  | none => pyDigitsOk cs
  | some i =>
    let ip := cs.take i
    let fp := cs.drop (i + 1)
    (fp.findIdx? (fun c => c = '.')).isNone &&
      pyFracOk ip && pyFracOk fp && !(ip.isEmpty && fp.isEmpty)

/-- Exponent part of a Python float literal: optional sign then digits. -/
def pyExpOk (cs : List Char) : Bool :=
  match cs with
  | [] => false
  | c :: t => if c = '+' || c = '-' then pyDigitsOk t else pyDigitsOk (c :: t)

/-- Body of a Python float literal after the sign: mantissa with optional
exponent. -/
def pyFloatBody (cs : List Char) : Bool :=
  match cs.findIdx? (fun c => c = 'e' || c = 'E') with
  | none => pyMantissaOk cs
  | some i => pyMantissaOk (cs.take i) && pyExpOk (cs.drop (i + 1))

/-- Embedding of the Python built-in `float(str)` as a recognizer: optional
whitespace and sign, then a decimal literal or one of `inf`, `infinity`,
`nan` (case-insensitive).  On success returns the trimmed literal text
standing for the IEEE value; `none` where `float()` raises `ValueError`. -/
def pyFloat? (s : String) : Option String :=
  match pyStrip s with
  | [] => none
  | c :: rest =>
    let body := if c = '+' || c = '-' then rest else c :: rest
    let low := String.mk (body.map Char.toLower)
    if low = "inf" || low = "infinity" || low = "nan" then some (String.mk (pyStrip s))
    else if pyFloatBody body then some (String.mk (pyStrip s)) else none

/-- Embedding of `RegExExtractor._convert_type` (regex.py): try boolean
(checking the lowercased value against `true` and `false`), then `int`, then
`float`, and fall back to the string itself. -/
def RegExExtractor.convert_type (value : String) : PyVal :=
  if pyLower value = "true" || pyLower value = "false" then
    PyVal.bool (pyLower value = "true")
  else
    match pyInt? value with
    | some n => PyVal.int n
    | none =>
      match pyFloat? value with
      | some f => PyVal.float f
      | none => PyVal.str value

/-! ## A small regular-expression engine

The regex extractor calls `re.search(pattern, response_text)`.  The engine
below embeds the fragment of Python regular expressions that the tool uses:
literal characters, the `\d` class, escaped punctuation, the greedy `*` and
`+` quantifiers on single atoms, and capturing groups.  Matching follows the
CPython backtracking discipline: candidate matches are enumerated in
backtracking preference order, and `search` scans start positions from the
left, so its result is the leftmost match with the engine-preferred extent.
Patterns outside this fragment (and patterns CPython itself rejects, such as
an unbalanced parenthesis) fail to compile. -/

/-- A single-character regex atom: a literal character or the `\d` class. -/
inductive RAtom : Type
  | char (c : Char)
  | digit
  deriving Repr, DecidableEq

/-- The embedded regex abstract syntax: atoms, concatenation, greedy `*` and
`+` over atoms, and capturing groups. -/
inductive RExp : Type
  | atom (a : RAtom)
  | seq (a b : RExp)
  | star (a : RAtom)
  | plus (a : RAtom)
  | group (a : RExp)
  deriving Repr, DecidableEq

/-- Does an atom match one character? -/
def RAtom.matchesChar : RAtom → Char → Bool
  | .char c, x => x = c
  | .digit, x => x.isDigit

/-- Length of the maximal leading run of characters matched by an atom. -/
def atomRun (a : RAtom) : List Char → Nat
  | [] => 0
  | c :: t => if a.matchesChar c then atomRun a t + 1 else 0

/-- All candidate matches of a regex at the head of the input, in
backtracking preference order; each candidate is the number of characters
consumed paired with the list of group captures in group-number order. -/
def RExp.mall : RExp → List Char → List (Nat × List String)
  | .atom a, s =>
    match s with
    | [] => []
    | c :: _ => if a.matchesChar c then [(1, [])] else []
  | .seq a b, s =>
    (RExp.mall a s).flatMap (fun p =>
      (RExp.mall b (s.drop p.1)).map (fun q => (p.1 + q.1, p.2 ++ q.2)))
  | .star a, s =>
    ((List.range (atomRun a s + 1)).reverse).map (fun k => (k, []))
  | .plus a, s =>
    ((List.range (atomRun a s)).reverse).map (fun k => (k + 1, []))
  | .group a, s =>
    (RExp.mall a s).map (fun p => (p.1, String.mk (s.take p.1) :: p.2))

/-- Scan start positions left to right; at the first position where the
pattern matches, return the matched substring and the group captures. -/
def reSearchAux (p : RExp) : List Char → Option (String × List String)
  | [] =>
    match RExp.mall p [] with
    | r :: _ => some (String.mk (([] : List Char).take r.1), r.2)
    | [] => none
  | c :: t =>
    match RExp.mall p (c :: t) with
    | r :: _ => some (String.mk ((c :: t).take r.1), r.2)
    | [] => reSearchAux p t

/-- Embedding of `re.search` on the compiled pattern: the leftmost match, as
the matched substring (`match.group(0)`) and group captures. -/
def reSearch (p : RExp) (text : String) : Option (String × List String) :=
  reSearchAux p text.data

/-- Characters with a special meaning in Python regex syntax. -/
def metachars : List Char :=
  ['.', '^', '$', '*', '+', '?', '{', '}', '[', ']', '|', '(', ')', '\\']

/-- Attach a quantifier following an atom, if any; `?` lies outside the
embedded fragment. -/
def applyPostfix (a : RAtom) : List Char → Option (RExp × List Char)
  | '*' :: t => some (RExp.star a, t)
  | '+' :: t => some (RExp.plus a, t)
  | '?' :: _ => none
  | t => some (RExp.atom a, t)

/-- Fold a nonempty item list into a concatenation. -/
def seqOf : List RExp → Option RExp
  | [] => none
  | [x] => some x
  | x :: rest => (seqOf rest).map (fun r => RExp.seq x r)

/-- Recursive-descent parser for the embedded regex fragment, fuel-indexed.
Parses a sequence of items up to the end of input or an unmatched closing
parenthesis, returning the items and the remaining input. -/
def parseItems (fuel : Nat) (cs : List Char) : Option (List RExp × List Char) :=
  match fuel with
  | 0 => none
  | fuel + 1 =>
    match cs with
    | [] => some ([], [])
    | ')' :: _ => some ([], cs)
    | '\\' :: c :: t =>
      let a? : Option RAtom :=
        if c = 'd' then some RAtom.digit
        else if c.isAlphanum then none
        else some (RAtom.char c)
      match a? with
      | none => none
      | some a =>
        match applyPostfix a t with
        | none => none
        | some (e, t2) =>
          match parseItems fuel t2 with
          | some (es, rest) => some (e :: es, rest)
          | none => none
    | '(' :: t =>
      match parseItems fuel t with
      | some (es, rest) =>
        match rest with
        | ')' :: t2 =>
          match seqOf es with
          | some inner =>
            match t2 with
            | '*' :: _ => none
            | '+' :: _ => none
            | '?' :: _ => none
            | _ =>
              match parseItems fuel t2 with
              | some (es2, rest2) => some (RExp.group inner :: es2, rest2)
              | none => none
          | none => none
        | _ => none
      | none => none
    | c :: t =>
      if metachars.contains c then none
      else
        match applyPostfix (RAtom.char c) t with
        | some (e, t2) =>
          match parseItems fuel t2 with
          | some (es, rest) => some (e :: es, rest)
          | none => none
        | none => none

/-- Embedding of `re.compile` on the embedded fragment: `none` both where
CPython raises `re.error` and where the pattern falls outside the fragment. -/
def compileRegex (pattern : String) : Option RExp :=
  match parseItems (pattern.length + 2) pattern.data with
  | some (es, []) => seqOf es
  | _ => none

/-! ## Extractors -/

/-- An HTTP response as the extractors see it: `text` is the body text that
`response.text` yields.  `jsonBody` is the parsed JSON body used by the
JSON-path extractor; it is carried alongside the raw text because the
JSON decoding step lives in code absent from the sources. -/
structure Response : Type where
  text : String
  jsonBody : Option PyVal

/-- Embedding of `RegExExtractor.extract` (regex.py): compile and search the
pattern against the response body; on a match, return the type-coerced first
capture group when the pattern has groups, else the whole match text; on no
match return nothing.  A pattern that fails to compile is an `re.error`. -/
def RegExExtractor.extract (response : Response) (pattern : String) :
    Except String (Option PyVal) :=
  match compileRegex pattern with
  | none => Except.error "re.error"
  | some compiled =>
    match reSearch compiled response.text with
    | some (whole, groups) =>
      match groups with
      | g1 :: _ => Except.ok (some (RegExExtractor.convert_type g1))
      | [] => Except.ok (some (PyVal.str whole))
    | none => Except.ok none

/-- One step of a dotted JSON path: a key lookup or a list index. -/
inductive JStep : Type
  | key (s : String)
  | idx (n : Nat)

/-- Digits to a natural number. -/
def digitsToNat (ds : List Char) : Nat :=
  ds.foldl (fun acc c => acc * 10 + (c.toNat - 48)) 0

/-- Parse the bracketed index suffixes of one path segment, `[0][1]...`,
with fuel for structural recursion. -/
def parseBracketsF : Nat → List Char → Option (List JStep)
  | 0, _ => none
  | _ + 1, [] => some []
  | fuel + 1, '[' :: t =>
    let ds := t.takeWhile Char.isDigit
    match t.drop ds.length with
    | ']' :: rest =>
      if ds.isEmpty then none
      else (parseBracketsF fuel rest).map
        (fun steps => JStep.idx (digitsToNat ds) :: steps)
    | _ => none
  | _ + 1, _ => none

/-- Parse the bracketed index suffixes of one path segment. -/
def parseBrackets (cs : List Char) : Option (List JStep) :=
  parseBracketsF (cs.length + 1) cs

/-- Parse one dotted-path segment such as `b` or `b[0]`. -/
def parseSeg (seg : List Char) : Option (List JStep) :=
  let name := seg.takeWhile (fun c => c ≠ '[')
  match parseBrackets (seg.drop name.length) with
  | some bs =>
    if name.isEmpty then (if bs.isEmpty then none else some bs)
    else some (JStep.key (String.mk name) :: bs)
  | none => none

/-- Split a character list at the dots, Python `str.split(".")` style. -/
def splitDots : List Char → List (List Char)
  | [] => [[]]
  | '.' :: t => [] :: splitDots t
  | c :: t =>
    match splitDots t with
    | seg :: rest => (c :: seg) :: rest
    | [] => [[c]]

/-- Parse a dotted path `a.b[0].c` into its steps. -/
def parseJPath (path : String) : Option (List JStep) :=
  ((splitDots path.data).mapM parseSeg).map List.flatten

/-- Apply one navigation step to a JSON value. -/
def jGet : PyVal → JStep → Option PyVal
  | PyVal.dict kvs, JStep.key k => List.lookup k kvs
  | PyVal.list xs, JStep.idx i => xs.get? i
  | _, _ => none

/-- Navigate a JSON value along parsed steps; a missing path is nothing. -/
def jNav (v : PyVal) : List JStep → Option PyVal
  | [] => some v
  | s :: rest =>
    match jGet v s with
    | some v2 => jNav v2 rest
    | none => none

/-- Modelled from the spec: `JPathExtractor.extract` lives in
`http/extractor/jpath.py`, which is absent from the sources; the spec says it
navigates the parsed body by dotted path (`a.b[0].c`), returns the JSON-native
typed value, and yields nothing for a missing path. -/
def JPathExtractor.extract (response : Response) (pattern : String) :
    Except String (Option PyVal) :=
  Except.ok
    (match response.jsonBody with
     | none => none
     | some j =>
       match parseJPath pattern with
       | none => none
       | some steps => jNav j steps)

/-- The registered extractor classes, as a tagged variant. -/
inductive BaseExtractor : Type
  | regexE
  | jpathE
  deriving Repr, DecidableEq

/-- Dynamic dispatch of `BaseExtractor.extract` over the registered
extractor classes. -/
def BaseExtractor.extract : BaseExtractor → Response → String → Except String (Option PyVal)
  | .regexE, r, p => RegExExtractor.extract r p
  | .jpathE, r, p => JPathExtractor.extract r p

/-- Embedding of `EXTRACTOR_REGISTRY` (extractor/__init__.py): the mapping
from `pattern_type` to extractor class. -/
def EXTRACTOR_REGISTRY : List (String × BaseExtractor) :=
  [("regex", BaseExtractor.regexE), ("jpath", BaseExtractor.jpathE)]

/-- Embedding of `get_extractor`: look the pattern type up in the registry;
an unknown type raises `UnknownExtractorError`, embedded as the error case. -/
def get_extractor (pattern_type : String) : Except String BaseExtractor :=
  match List.lookup pattern_type EXTRACTOR_REGISTRY with
  | some cls => Except.ok cls
  | none => Except.error ("Unknown pattern_type: " ++ pattern_type)

/-- Modelled from the spec and the tests: `ExtractPattern` lives in
`models/config.py`, absent from the sources; per the spec it is the pair
`{pattern_type, pattern_data}`. -/
structure ExtractPattern : Type where
  pattern_type : String
  pattern_data : String

/-- Embedding of `extract_all` (extractor/__init__.py): run each pattern in
order, binding each logical name to the value its extractor produced; a raised
error (unknown pattern type, invalid regex) propagates. -/
def extract_all (response : Response) :
    List (String × ExtractPattern) → Except String (List (String × Option PyVal))
  | [] => Except.ok []
  | (name, pat) :: rest =>
    match get_extractor pat.pattern_type with
    | Except.error e => Except.error e
    | Except.ok cls =>
      match cls.extract response pat.pattern_data with
      | Except.error e => Except.error e
      | Except.ok v =>
        match extract_all response rest with
        | Except.error e => Except.error e
        | Except.ok tail => Except.ok ((name, v) :: tail)

/-- The value a single `extracts` entry contributes in `extract_all`. -/
def extractValue (response : Response) (p : ExtractPattern) :
    Except String (Option PyVal) :=
  match get_extractor p.pattern_type with
  | Except.error e => Except.error e
  | Except.ok cls => cls.extract response p.pattern_data

/-- The contributed value of an entry whose extraction raised no error. -/
def extractValueD (response : Response) (p : ExtractPattern) : Option PyVal :=
  match extractValue response p with
  | Except.ok v => v
  | Except.error _ => none

/-- Boolean success test for `Except`. -/
def exOk {ε α : Type} : Except ε α → Bool
  | Except.ok _ => true
  | Except.error _ => false

/-! ## Connection strategies

Each strategy class becomes a state structure with explicit state passing.
Network effects are modelled structurally: a socket records whether it has
completed the TCP connect, whether `TCP_NODELAY` is set and whether it was
wrapped for TLS; sessions are identified by a creation counter threaded
through the operations.  Logging is modelled as a list of emitted events. -/

/-- A log line: the level distinguishes the warnings the claims speak of. -/
inductive LogEvent : Type
  | info (msg : String)
  | warning (msg : String)
  deriving Repr, DecidableEq

/-- TLS settings of the target (models/config.py is absent from the sources;
the fields are the ones preconnect.py reads: `enabled`, `verify_cert`). -/
structure TLSConfig : Type where
  enabled : Bool
  verify_cert : Bool
  deriving Repr, DecidableEq

/-- Target configuration as read by the strategies: host, port, TLS. -/
structure TargetConfig : Type where
  host : String
  port : Nat
  tls : TLSConfig
  deriving Repr, DecidableEq

/-- A `requests.Session`, identified by its creation-counter stamp. -/
structure PySession : Type where
  sid : Nat
  deriving Repr, DecidableEq

/-- The HTTP client as the strategies see it: its server configuration. -/
structure HTTPClient : Type where
  config : TargetConfig
  deriving Repr, DecidableEq

/-- Modelled from the spec: `HTTPClient.create_session` (http/client.py is
absent from the sources) returns a fresh `requests.Session`; freshness is
embedded by stamping each session with the next counter value. -/
def HTTPClient.create_session (_client : HTTPClient) (ctr : Nat) : PySession × Nat :=
  ({ sid := ctr }, ctr + 1)

/-- A socket: did the TCP connect complete, is `TCP_NODELAY` set, was the
socket wrapped for TLS. -/
structure PySocket : Type where
  connected : Bool
  nodelay : Bool
  tlsWrapped : Bool
  deriving Repr, DecidableEq

/-- Embedding of `socket.create_connection`: a freshly connected TCP socket,
no options set, no TLS. -/
def createConnection (_host : String) (_port : Nat) (_timeout : Nat) : PySocket :=
  { connected := true, nodelay := false, tlsWrapped := false }

/-- Closing a socket. -/
def PySocket.close (sock : PySocket) : PySocket := { sock with connected := false }

/-- State of `PreconnectStrategy`: the socket and session lists and the
target fields copied out of the client configuration. -/
structure PreconnectStrategy : Type where
  sockets : List PySocket
  sessions : List PySession
  host : String
  port : Nat
  use_tls : Bool
  verify_cert : Bool
  deriving Repr, DecidableEq

/-- `PreconnectStrategy.__init__`: empty lists, default target fields. -/
def PreconnectStrategy.init : PreconnectStrategy :=
  { sockets := [], sessions := [], host := "", port := 0,
    use_tls := false, verify_cert := true }

/-- Embedding of `PreconnectStrategy._create_connected_socket`: TCP connect,
set `TCP_NODELAY`, then wrap for TLS when the target uses TLS. -/
def PreconnectStrategy.create_connected_socket (s : PreconnectStrategy) : PySocket :=
  let sock := createConnection s.host s.port 10
  let sock := { sock with nodelay := true }
  if s.use_tls then { sock with tlsWrapped := true } else sock

/-- Embedding of `PreconnectStrategy._create_session_with_socket`: a fresh
`requests.Session` with cleared cookies (the adapter does not inject the
socket; see the spec's design notes). -/
def PreconnectStrategy.create_session_with_socket (_s : PreconnectStrategy)
    (_sock : PySocket) (ctr : Nat) : PySession × Nat :=
  ({ sid := ctr }, ctr + 1)

/-- The `for i in range(num_threads)` loop of `PreconnectStrategy.prepare`:
append one connected socket and one session per iteration. -/
def PreconnectStrategy.prepareLoop (s : PreconnectStrategy) (ctr : Nat) :
    Nat → PreconnectStrategy × Nat
  | 0 => (s, ctr)
  | n + 1 =>
    let sock := s.create_connected_socket
    let s2 := { s with sockets := s.sockets ++ [sock] }
    let (sess, ctr2) := s2.create_session_with_socket sock ctr
    let s3 := { s2 with sessions := s2.sessions ++ [sess] }
    PreconnectStrategy.prepareLoop s3 ctr2 n

/-- Embedding of `PreconnectStrategy.prepare`: copy the target fields from
the client configuration, then create one pre-connected socket and one
session per thread. -/
def PreconnectStrategy.prepare (s : PreconnectStrategy) (num_threads : Nat)
    (client : HTTPClient) (ctr : Nat) : PreconnectStrategy × Nat :=
  let s2 := { s with
    host := client.config.host
    port := client.config.port
    use_tls := client.config.tls.enabled
    verify_cert := client.config.tls.verify_cert }
  PreconnectStrategy.prepareLoop s2 ctr num_threads

/-- Embedding of `PreconnectStrategy.get_session`: an index at or past the
session count raises `IndexError`; otherwise the dedicated session of the
thread is returned. -/
def PreconnectStrategy.get_session (s : PreconnectStrategy) (thread_id : Nat) :
    Except String PySession :=
  if h : s.sessions.length ≤ thread_id then Except.error "IndexError"
  else Except.ok (s.sessions.get ⟨thread_id, by omega⟩)

/-- Embedding of `PreconnectStrategy.cleanup`: close every socket and clear
both lists; the closed sockets are returned as the record of the effect. -/
def PreconnectStrategy.cleanup (s : PreconnectStrategy) :
    PreconnectStrategy × List PySocket :=
  ({ s with sockets := [], sessions := [] }, s.sockets.map PySocket.close)

/-- State of `LazyStrategy`: only the stored client reference. -/
structure LazyStrategy : Type where
  client : Option HTTPClient
  deriving Repr, DecidableEq

/-- `LazyStrategy.__init__`: no client stored. -/
def LazyStrategy.init : LazyStrategy := { client := none }

/-- Embedding of `LazyStrategy.prepare`: store the client reference and log;
no connection is opened.  The warning is the one the logs carry verbatim. -/
def LazyStrategy.prepare (_s : LazyStrategy) (num_threads : Nat)
    (client : HTTPClient) : LazyStrategy × List LogEvent :=
  ({ client := some client },
   [LogEvent.info ("[LazyStrategy] Prepared for " ++ toString num_threads ++
      " threads (lazy mode)"),
    LogEvent.warning
      "[LazyStrategy] WARNING: Lazy connections are NOT recommended for race attacks!",
    LogEvent.info "[LazyStrategy] Each thread will establish connection on first request"])

/-- Embedding of `LazyStrategy.get_session`: create a brand-new session on
demand through the stored client; nothing is logged.  With no stored client
the call fails (`self.client` is `None`). -/
def LazyStrategy.get_session (s : LazyStrategy) (_thread_id : Nat) (ctr : Nat) :
    Option (PySession × Nat) × List LogEvent :=
  match s.client with
  | none => (none, [])
  | some c =>
    let (sess, ctr2) := c.create_session ctr
    (some (sess, ctr2), [])

/-- Embedding of `LazyStrategy.cleanup`: no cleanup is performed; the state
is unchanged and no session is closed (second component: sessions closed). -/
def LazyStrategy.cleanup (s : LazyStrategy) :
    LazyStrategy × List PySession × List LogEvent :=
  (s, [], [LogEvent.info "[LazyStrategy] No cleanup needed (sessions managed by threads)"])

/-- State of `PooledStrategy`: the FIFO queue of pooled sessions and the
recorded pool size. -/
structure PooledStrategy : Type where
  pool : List PySession
  pool_size : Nat
  deriving Repr, DecidableEq

/-- `PooledStrategy.__init__`: empty queue. -/
def PooledStrategy.init : PooledStrategy := { pool := [], pool_size := 0 }

/-- The session-creation loop of `PooledStrategy.prepare`: `queue.put` is an
append at the back. -/
def PooledStrategy.fillPool (s : PooledStrategy) (client : HTTPClient) (ctr : Nat) :
    Nat → PooledStrategy × Nat
  | 0 => (s, ctr)
  | k + 1 =>
    let (sess, ctr2) := client.create_session ctr
    PooledStrategy.fillPool { s with pool := s.pool ++ [sess] } client ctr2 k

/-- Embedding of `PooledStrategy.prepare`: pool size `min(num_threads, 5)`,
log two infos and two warnings, then create and enqueue the pool sessions. -/
def PooledStrategy.prepare (s : PooledStrategy) (num_threads : Nat)
    (client : HTTPClient) (ctr : Nat) : PooledStrategy × Nat × List LogEvent :=
  let m := min num_threads 5
  let s2 := { s with pool_size := m }
  let events :=
    [LogEvent.info ("[PooledStrategy] Creating connection pool with " ++
        toString m ++ " sessions"),
     LogEvent.info ("[PooledStrategy] " ++ toString num_threads ++
        " threads will share these connections"),
     LogEvent.warning "[PooledStrategy] WARNING: Pooled connections serialize requests!",
     LogEvent.warning "[PooledStrategy] This is NOT suitable for race condition attacks!"]
  let (s3, ctr2) := PooledStrategy.fillPool s2 client ctr m
  (s3, ctr2, events)

/-- Embedding of `PooledStrategy.get_session`: `queue.get` takes the front
of the FIFO queue and blocks while the queue is empty; the blocked call is
the `none` case. -/
def PooledStrategy.get_session (s : PooledStrategy) (_thread_id : Nat) :
    Option (PySession × PooledStrategy) :=
  match s.pool with
  | [] => none
  | sess :: rest => some (sess, { s with pool := rest })

/-- Embedding of `PooledStrategy.return_session`: `queue.put` the session
back at the rear of the queue. -/
def PooledStrategy.return_session (s : PooledStrategy) (sess : PySession) :
    PooledStrategy :=
  { s with pool := s.pool ++ [sess] }

/-- Embedding of `PooledStrategy.cleanup`: drain the queue closing each
session; the drained sessions are returned as the record of the effect. -/
def PooledStrategy.cleanup (s : PooledStrategy) : PooledStrategy × List PySession :=
  ({ s with pool := [] }, s.pool)

/-- The registered strategy classes, as a tagged variant. -/
inductive StrategyTag : Type
  | preconnectS
  | lazyS
  | pooledS
  deriving Repr, DecidableEq

/-- Embedding of `CONNECTION_STRATEGIES` (connection/__init__.py): the
factory mapping from strategy name to strategy class. -/
def CONNECTION_STRATEGIES : List (String × StrategyTag) :=
  [("preconnect", StrategyTag.preconnectS),
   ("lazy", StrategyTag.lazyS),
   ("pooled", StrategyTag.pooledS)]

/-- Embedding of `create_connection_strategy`: a name not in the factory
mapping raises `ValueError`; otherwise the strategy class is instantiated. -/
def create_connection_strategy (strategy_type : String) : Except String StrategyTag :=
  match List.lookup strategy_type CONNECTION_STRATEGIES with
  | none => Except.error ("Unknown connection strategy: " ++ strategy_type)
  | some cls => Except.ok cls

/-! ## CLI exit codes -/

/-- What the filesystem says about a path: missing, a regular file, or a
directory (exists but `is_file()` is false). -/
inductive PathKind : Type
  | absent
  | file
  | dir
  deriving Repr, DecidableEq

/-- Embedding of `validate_config_file` (cli.py): a missing path exits with
code 1, an existing non-file path exits with code 1, and a file is returned.
`sys.exit(code)` is the error case carrying the exit code. -/
def validate_config_file (fs : String → PathKind) (config_path : String) :
    Except Nat String :=
  match fs config_path with
  | PathKind.absent => Except.error 1
  | PathKind.dir => Except.error 1
  | PathKind.file => Except.ok config_path

/-- Outcome of `RaceCoordinator.run()` as `main` observes it: a normal
return with the executed state count, a `KeyboardInterrupt`, or any other
exception. -/
inductive RunOutcome : Type
  | success (states : Nat)
  | interrupted
  | failed (msg : String)
  deriving Repr, DecidableEq

/-- Embedding of the exit-code logic of `main` (cli.py): config-file
validation may exit first; otherwise success exits 0, `KeyboardInterrupt`
exits 130 and any other exception exits 1. -/
def main (fs : String → PathKind) (config : String) (run : RunOutcome) : Nat :=
  match validate_config_file fs config with
  | Except.error code => code
  | Except.ok _ =>
    match run with
    | RunOutcome.success _ => 0
    | RunOutcome.interrupted => 130
    | RunOutcome.failed _ => 1

/-! ## Metrics registry -/

/-- Modelled from the spec: `MetricsTimer` (metrics/timer.py is absent from
the sources); the registry only reads its `enabled` construction flag. -/
structure MetricsTimer : Type where
  enabled : Bool
  deriving Repr, DecidableEq

/-- Modelled from the spec: `MetricsCounter` (metrics/counter.py is absent
from the sources); the registry only reads its `enabled` construction flag. -/
structure MetricsCounter : Type where
  enabled : Bool
  deriving Repr, DecidableEq

/-- The class-level state of `MetricsRegistry` (registry.py): the lazily
created timer and counter and the enabled flag (the source fields `_timer`,
`_counter`, `_enabled`, renamed with an `F` suffix). -/
structure MetricsRegistry : Type where
  timerF : Option MetricsTimer
  counterF : Option MetricsCounter
  enabledF : Bool
  deriving Repr, DecidableEq

/-- The class-variable defaults of `MetricsRegistry`: nothing created,
disabled. -/
def MetricsRegistry.initState : MetricsRegistry :=
  { timerF := none, counterF := none, enabledF := false }

/-- Embedding of `MetricsRegistry.initialize` (renamed: `initialize` is a
Lean command keyword): set the flag and create both components with it. -/
def MetricsRegistry.setup (_s : MetricsRegistry) (enabled : Bool) : MetricsRegistry :=
  { enabledF := enabled,
    timerF := some { enabled := enabled },
    counterF := some { enabled := enabled } }

/-- Embedding of `MetricsRegistry.get_timer`: when no timer exists yet,
lazily run the setup with `enabled := False`; then return the stored timer
(the impossible `none` after setup mirrors the source assertion). -/
def MetricsRegistry.get_timer (s : MetricsRegistry) : MetricsTimer × MetricsRegistry :=
  match s.timerF with
  | some t => (t, s)
  | none =>
    let s2 := s.setup false
    match s2.timerF with
    | some t => (t, s2)
    | none => ({ enabled := false }, s2)

/-- Embedding of `MetricsRegistry.get_counter`, same shape as `get_timer`. -/
def MetricsRegistry.get_counter (s : MetricsRegistry) : MetricsCounter × MetricsRegistry :=
  match s.counterF with
  | some c => (c, s)
  | none =>
    let s2 := s.setup false
    match s2.counterF with
    | some c => (c, s2)
    | none => ({ enabled := false }, s2)

/-- Embedding of `MetricsRegistry.is_enabled`. -/
def MetricsRegistry.is_enabled (s : MetricsRegistry) : Bool := s.enabledF

/-- The calls a client can make on the registry class. -/
inductive MetricsOp : Type
  | setup (enabled : Bool)
  | getTimer
  | getCounter
  deriving Repr, DecidableEq

/-- State transition of one registry call. -/
def MetricsRegistry.step (s : MetricsRegistry) : MetricsOp → MetricsRegistry
  | .setup b => s.setup b
  | .getTimer => (s.get_timer).2
  | .getCounter => (s.get_counter).2

/-- Run a call sequence against the registry from its class defaults. -/
def MetricsRegistry.run (ops : List MetricsOp) : MetricsRegistry :=
  ops.foldl MetricsRegistry.step MetricsRegistry.initState

/-! ## Definitions used by the claim statements -/

/-- The specification reading of the regex extractor under comparison: type
coercion applied in both the capture-group branch and the whole-match branch.
This follows the spec wording, to be compared with `RegExExtractor.extract`,
whose whole-match branch returns the match text uncoerced. -/
def extractSpecC1 (response : Response) (pattern : String) :
    Except String (Option PyVal) :=
  match compileRegex pattern with
  | none => Except.error "re.error"
  | some compiled =>
    match reSearch compiled response.text with
    | some (whole, groups) =>
      match groups with
      | g1 :: _ => Except.ok (some (RegExExtractor.convert_type g1))
      | [] => Except.ok (some (RegExExtractor.convert_type whole))
    | none => Except.ok none

/-- A sample plain-HTTP client configuration for concrete instances. -/
def sampleClient : HTTPClient :=
  { config := { host := "localhost", port := 8080, tls := { enabled := false, verify_cert := true } } }

/-- A sample TLS client configuration for concrete instances. -/
def sampleTlsClient : HTTPClient :=
  { config := { host := "localhost", port := 443, tls := { enabled := true, verify_cert := false } } }

/-! ## Theorems -/

/-- C2, counterexample: the factory rejects `multiplexed` with `ValueError`
instead of succeeding; it never yields a strategy for it. -/
theorem C2_counterexample :
    create_connection_strategy "multiplexed" =
      Except.error ("Unknown connection strategy: " ++ "multiplexed") ∧
    ∀ tag : StrategyTag,
      create_connection_strategy "multiplexed" ≠ Except.ok tag := by
  refine ⟨rfl, ?_⟩
  intro tag h
  simp [create_connection_strategy, CONNECTION_STRATEGIES, List.lookup] at h

/-- C2, amended: `multiplexed` is not an accepted `connection_strategy`
value; `create_connection_strategy` fails with `ValueError` on it and on
every other name outside the registry, and the accepted values are exactly
`preconnect`, `lazy` and `pooled`. -/
theorem C2_connection_strategy_amended (t : String) :
    (t ≠ "preconnect" → t ≠ "lazy" → t ≠ "pooled" →
      create_connection_strategy t =
        Except.error ("Unknown connection strategy: " ++ t)) ∧
    create_connection_strategy "preconnect" = Except.ok StrategyTag.preconnectS ∧
    create_connection_strategy "lazy" = Except.ok StrategyTag.lazyS ∧
    create_connection_strategy "pooled" = Except.ok StrategyTag.pooledS := by
  refine ⟨?_, rfl, rfl, rfl⟩
  intro h1 h2 h3
  have e1 : (t == "preconnect") = false := beq_eq_false_iff_ne.mpr h1
  have e2 : (t == "lazy") = false := beq_eq_false_iff_ne.mpr h2
  have e3 : (t == "pooled") = false := beq_eq_false_iff_ne.mpr h3
  simp [create_connection_strategy, CONNECTION_STRATEGIES, List.lookup, e1, e2, e3]

/-- C2, witness for the amended theorem at the concrete name `multiplexed`. -/
theorem C2_connection_strategy_amended_witness :
    create_connection_strategy "multiplexed" =
      Except.error ("Unknown connection strategy: " ++ "multiplexed") :=
  (C2_connection_strategy_amended "multiplexed").1 (by decide) (by decide) (by decide)

/-- C3, counterexample: a config path naming no existing file makes the CLI
exit with code 1, not with code 2 as claimed. -/
theorem C3_counterexample :
    main (fun _ => PathKind.absent) "missing.yaml" (RunOutcome.success 1) = 1 ∧
    (1 : Nat) ≠ 2 :=
  ⟨rfl, by decide⟩

/-- C3, amended: the CLI exits 0 on success, 1 on failure and 130 on
`KeyboardInterrupt`; a config path that does not name an existing file exits
with code 1 (as does an existing non-file path), and the exit code 2 is
never produced by this logic. -/
theorem C3_exit_codes_amended (fs : String → PathKind) (config : String)
    (run : RunOutcome) :
    (fs config = PathKind.file → ∀ n, run = RunOutcome.success n →
      main fs config run = 0) ∧
    (fs config = PathKind.file → ∀ msg, run = RunOutcome.failed msg →
      main fs config run = 1) ∧
    (fs config = PathKind.file → run = RunOutcome.interrupted →
      main fs config run = 130) ∧
    (fs config ≠ PathKind.file → main fs config run = 1) ∧
    main fs config run ≠ 2 := by
  cases hfs : fs config <;> cases run <;>
    simp [main, validate_config_file, hfs]

/-- C3, witness: with an existing config file, a user interruption exits
with code 130. -/
theorem C3_exit_codes_amended_witness :
    main (fun _ => PathKind.file) "cfg.yaml" RunOutcome.interrupted = 130 :=
  (C3_exit_codes_amended (fun _ => PathKind.file) "cfg.yaml"
    RunOutcome.interrupted).2.2.1 rfl rfl

/-- C7: `get_extractor` fails with `UnknownExtractorError` on every pattern
type outside the registry, and returns the registered extractor instance for
`regex` and for `jpath`. -/
theorem C7_get_extractor (t : String) :
    (t ≠ "regex" → t ≠ "jpath" →
      get_extractor t = Except.error ("Unknown pattern_type: " ++ t)) ∧
    get_extractor "regex" = Except.ok BaseExtractor.regexE ∧
    get_extractor "jpath" = Except.ok BaseExtractor.jpathE := by
  refine ⟨?_, rfl, rfl⟩
  intro h1 h2
  have e1 : (t == "regex") = false := beq_eq_false_iff_ne.mpr h1
  have e2 : (t == "jpath") = false := beq_eq_false_iff_ne.mpr h2
  simp [get_extractor, EXTRACTOR_REGISTRY, List.lookup, e1, e2]

/-- C7, witness at the unregistered pattern type `xpath`. -/
theorem C7_get_extractor_witness :
    get_extractor "xpath" = Except.error ("Unknown pattern_type: " ++ "xpath") :=
  (C7_get_extractor "xpath").1 (by decide) (by decide)

/-- A call sequence free of `setup true` keeps the registry disabled. -/
lemma metrics_run_disabled (ops : List MetricsOp) :
    ∀ s : MetricsRegistry, s.enabledF = false → MetricsOp.setup true ∉ ops →
      (ops.foldl MetricsRegistry.step s).enabledF = false := by
  induction ops with
  | nil => intro s hs _; exact hs
  | cons op rest ih =>
    intro s hs hmem
    simp only [List.foldl_cons]
    refine ih _ ?_ (fun hr => hmem (List.mem_cons_of_mem _ hr))
    cases op with
    | setup b =>
      cases b with
      | false => rfl
      | true => exact absurd (List.mem_cons_self _ _) hmem
    | getTimer =>
      cases ht : s.timerF with
      | some t => simp [MetricsRegistry.step, MetricsRegistry.get_timer, ht, hs]
      | none => simp [MetricsRegistry.step, MetricsRegistry.get_timer, ht, MetricsRegistry.setup]
    | getCounter =>
      cases hc : s.counterF with
      | some c => simp [MetricsRegistry.step, MetricsRegistry.get_counter, hc, hs]
      | none => simp [MetricsRegistry.step, MetricsRegistry.get_counter, hc, MetricsRegistry.setup]

/-- C10: `get_timer` and `get_counter` never come back empty-handed — after
either call the registry holds the very component that was returned — and
when called before any setup they lazily set the registry up disabled, so
`is_enabled` stays `False`; along any call sequence that never runs
`initialize(enabled=True)`, the registry remains disabled. -/
theorem C10_metrics_registry :
    (∀ s : MetricsRegistry,
      ((s.get_timer).2).timerF = some (s.get_timer).1 ∧
      ((s.get_counter).2).counterF = some (s.get_counter).1) ∧
    ((MetricsRegistry.initState.get_timer).2).is_enabled = false ∧
    ((MetricsRegistry.initState.get_counter).2).is_enabled = false ∧
    (∀ s : MetricsRegistry, s.timerF = none →
      ((s.get_timer).2).is_enabled = false) ∧
    (∀ s : MetricsRegistry, s.counterF = none →
      ((s.get_counter).2).is_enabled = false) ∧
    (∀ ops : List MetricsOp, MetricsOp.setup true ∉ ops →
      (MetricsRegistry.run ops).is_enabled = false) := by
  refine ⟨?_, rfl, rfl, ?_, ?_, ?_⟩
  · intro s
    constructor
    · cases ht : s.timerF with
      | some t => simp [MetricsRegistry.get_timer, ht]
      | none => simp [MetricsRegistry.get_timer, ht, MetricsRegistry.setup]
    · cases hc : s.counterF with
      | some c => simp [MetricsRegistry.get_counter, hc]
      | none => simp [MetricsRegistry.get_counter, hc, MetricsRegistry.setup]
  · intro s ht
    simp [MetricsRegistry.get_timer, ht, MetricsRegistry.setup, MetricsRegistry.is_enabled]
  · intro s hc
    simp [MetricsRegistry.get_counter, hc, MetricsRegistry.setup, MetricsRegistry.is_enabled]
  · intro ops hmem
    exact metrics_run_disabled ops MetricsRegistry.initState rfl hmem

/-- C10, witness: reading the timer and the counter before any explicit
setup leaves the registry disabled. -/
theorem C10_metrics_registry_witness :
    (MetricsRegistry.run [MetricsOp.getTimer, MetricsOp.getCounter]).is_enabled = false :=
  C10_metrics_registry.2.2.2.2.2 [MetricsOp.getTimer, MetricsOp.getCounter] (by decide)

/-- The pool-filling loop appends exactly its count of fresh sessions and
leaves the recorded pool size unchanged. -/
lemma fillPool_length (client : HTTPClient) (k : Nat) :
    ∀ (s : PooledStrategy) (ctr : Nat),
      ((PooledStrategy.fillPool s client ctr k).1).pool.length = s.pool.length + k ∧
      ((PooledStrategy.fillPool s client ctr k).1).pool_size = s.pool_size := by
  induction k with
  | zero => intro s ctr; simp [PooledStrategy.fillPool]
  | succ k ih =>
    intro s ctr
    simp only [PooledStrategy.fillPool, HTTPClient.create_session]
    obtain ⟨h1, h2⟩ := ih { s with pool := s.pool ++ [{ sid := ctr }] } (ctr + 1)
    refine ⟨?_, h2⟩
    rw [h1]
    simp
    omega

/-- C5: from a fresh pooled strategy, `prepare(N, client)` puts exactly
`min(N, 5)` sessions into the pool (at least one when `N ≥ 1`), records that
size and logs the serialization warning; `get_session` blocks while the
queue is empty and otherwise takes the session at the front; and
`return_session` puts the session back at the rear. -/
theorem C5_pooled_strategy (n : Nat) (client : HTTPClient) (ctr : Nat) (hn : 1 ≤ n) :
    ((PooledStrategy.init.prepare n client ctr).1).pool.length = min n 5 ∧
    1 ≤ ((PooledStrategy.init.prepare n client ctr).1).pool.length ∧
    ((PooledStrategy.init.prepare n client ctr).1).pool_size = min n 5 ∧
    LogEvent.warning "[PooledStrategy] WARNING: Pooled connections serialize requests!"
      ∈ (PooledStrategy.init.prepare n client ctr).2.2 ∧
    (∀ (st : PooledStrategy) (tid : Nat), st.pool = [] → st.get_session tid = none) ∧
    (∀ (st : PooledStrategy) (tid : Nat) (sess : PySession) (rest : List PySession),
      st.pool = sess :: rest →
      st.get_session tid = some (sess, { st with pool := rest })) ∧
    (∀ (st : PooledStrategy) (sess : PySession),
      (st.return_session sess).pool = st.pool ++ [sess]) := by
  obtain ⟨hlen, hsize⟩ :=
    fillPool_length client (min n 5)
      { PooledStrategy.init with pool_size := min n 5 } ctr
  refine ⟨?_, ?_, ?_, ?_, ?_, ?_, ?_⟩
  · simpa [PooledStrategy.prepare, PooledStrategy.init] using hlen
  · have : ((PooledStrategy.init.prepare n client ctr).1).pool.length = min n 5 := by
      simpa [PooledStrategy.prepare, PooledStrategy.init] using hlen
    omega
  · simpa [PooledStrategy.prepare, PooledStrategy.init] using hsize
  · simp [PooledStrategy.prepare]
  · intro st tid h
    simp [PooledStrategy.get_session, h]
  · intro st tid sess rest h
    simp [PooledStrategy.get_session, h]
  · intro st sess
    rfl

/-- C5, witness: seven workers share a pool of five sessions. -/
theorem C5_pooled_strategy_witness :
    ((PooledStrategy.init.prepare 7 sampleClient 0).1).pool.length = 5 :=
  ((C5_pooled_strategy 7 sampleClient 0 (by decide)).1).trans (by decide)

/-- C6, counterexample: on the lazy strategy the claim fails twice at a
concrete run — `get_session` creates a session yet emits no warning (the
not-recommended warning is logged by `prepare`), and `cleanup` closes
nothing and leaves the state untouched, so the session the strategy created
is never destroyed by it. -/
theorem C6_counterexample :
    ((((LazyStrategy.init.prepare 2 sampleClient).1).get_session 0 0).2
        = ([] : List LogEvent)) ∧
    ((((LazyStrategy.init.prepare 2 sampleClient).1).get_session 0 0).1
        = some ({ sid := 0 }, 1)) ∧
    ((((LazyStrategy.init.prepare 2 sampleClient).1).cleanup).2.1
        = ([] : List PySession)) ∧
    ((((LazyStrategy.init.prepare 2 sampleClient).1).cleanup).1
        = (LazyStrategy.init.prepare 2 sampleClient).1) :=
  ⟨rfl, rfl, rfl, rfl⟩

/-- C6, amended: preconnect and pooled sessions and sockets are created by
`prepare` and destroyed by `cleanup` — preconnect cleanup closes every held
socket and empties both lists, pooled cleanup drains and closes the whole
pool; the lazy strategy departs from the pattern: `prepare` stores the
client reference only and is where the defeats-the-race warning is logged,
`get_session` opens a fresh session on demand emitting no warning, and
`cleanup` destroys nothing. -/
theorem C6_lifecycle_amended (n : Nat) (client : HTTPClient) (ctr : Nat) :
    (∀ st : PreconnectStrategy,
      (st.cleanup).2 = st.sockets.map PySocket.close ∧
      ((st.cleanup).1).sockets = [] ∧ ((st.cleanup).1).sessions = []) ∧
    (∀ st : PooledStrategy,
      (st.cleanup).2 = st.pool ∧ ((st.cleanup).1).pool = []) ∧
    ((LazyStrategy.init.prepare n client).1 = { client := some client } ∧
     LogEvent.warning
        "[LazyStrategy] WARNING: Lazy connections are NOT recommended for race attacks!"
        ∈ (LazyStrategy.init.prepare n client).2) ∧
    (((LazyStrategy.init.prepare n client).1).get_session 0 ctr =
        (some ({ sid := ctr }, ctr + 1), []) ∧
     (∀ (st : LazyStrategy) (tid c : Nat), (st.get_session tid c).2 = [])) ∧
    (∀ st : LazyStrategy, (st.cleanup).1 = st ∧ (st.cleanup).2.1 = []) := by
  refine ⟨fun st => ⟨rfl, rfl, rfl⟩, fun st => ⟨rfl, rfl⟩, ⟨rfl, ?_⟩, ⟨rfl, ?_⟩,
    fun st => ⟨rfl, rfl⟩⟩
  · simp [LazyStrategy.prepare]
  · intro st tid c
    cases hc : st.client <;>
      simp [LazyStrategy.get_session, HTTPClient.create_session, hc]

/-- Every socket the preconnect loop creates is connected, has `TCP_NODELAY`
set, and is TLS-wrapped exactly when the strategy state says TLS is on. -/
lemma create_connected_socket_eq (s : PreconnectStrategy) :
    s.create_connected_socket =
      { connected := true, nodelay := true, tlsWrapped := s.use_tls } := by
  cases h : s.use_tls <;>
    simp [PreconnectStrategy.create_connected_socket, createConnection, h]

/-- Unfolding of the preconnect preparation loop: it appends one connected
socket and one counter-stamped session per iteration and leaves the copied
target fields unchanged. -/
lemma preconnect_prepareLoop_spec (n : Nat) :
    ∀ (s : PreconnectStrategy) (ctr : Nat),
      ((s.prepareLoop ctr n).1).sockets =
        s.sockets ++ List.replicate n
          { connected := true, nodelay := true, tlsWrapped := s.use_tls } ∧
      ((s.prepareLoop ctr n).1).sessions =
        s.sessions ++ (List.range n).map (fun i => { sid := ctr + i }) ∧
      ((s.prepareLoop ctr n).1).use_tls = s.use_tls := by
  induction n with
  | zero => intro s ctr; simp [PreconnectStrategy.prepareLoop]
  | succ n ih =>
    intro s ctr
    obtain ⟨h1, h2, h3⟩ :=
      ih { s with
             sockets := s.sockets ++ [s.create_connected_socket],
             sessions := (s.sockets ++ [s.create_connected_socket], s.sessions).2 ++
               [{ sid := ctr }] } (ctr + 1)
    refine ⟨?_, ?_, ?_⟩
    · rw [show ((s.prepareLoop ctr (n + 1)).1) =
          ((PreconnectStrategy.prepareLoop _ (ctr + 1) n).1) from rfl] at *
      rw [h1]
      simp [create_connected_socket_eq, List.replicate_succ, List.append_assoc]
    · rw [show ((s.prepareLoop ctr (n + 1)).1) =
          ((PreconnectStrategy.prepareLoop _ (ctr + 1) n).1) from rfl] at *
      rw [h2]
      simp only [List.range_succ_eq_map, List.map_cons, List.map_map, List.append_assoc,
        List.singleton_append, Nat.add_zero]
      congr 2
      apply List.map_congr_left
      intro i _
      simp [Function.comp]
      omega
    · rw [show ((s.prepareLoop ctr (n + 1)).1) =
          ((PreconnectStrategy.prepareLoop _ (ctr + 1) n).1) from rfl] at *
      exact h3

/-- Reading a stamped session out of the prepared session list. -/
lemma sessions_get_stamped (n ctr tid : Nat) (h : tid < n) :
    ((List.range n).map (fun i => ({ sid := ctr + i } : PySession))).get
      ⟨tid, by simpa using h⟩ = { sid := ctr + tid } := by
  simp [List.get_eq_getElem]

/-- C4: from a fresh preconnect strategy, `prepare(N, client)` opens exactly
`N` sockets (at least one when `N ≥ 1`), every one of them with the TCP
connect completed, `TCP_NODELAY` set, and the TLS wrap applied exactly when
the target configuration enables TLS; afterwards the strategy holds exactly
`N` sessions, one per worker. -/
theorem C4_preconnect_prepare (n : Nat) (client : HTTPClient) (ctr : Nat)
    (hn : 1 ≤ n) :
    ((PreconnectStrategy.init.prepare n client ctr).1).sockets.length = n ∧
    ((PreconnectStrategy.init.prepare n client ctr).1).sessions.length = n ∧
    1 ≤ ((PreconnectStrategy.init.prepare n client ctr).1).sockets.length ∧
    ∀ sock ∈ ((PreconnectStrategy.init.prepare n client ctr).1).sockets,
      sock.connected = true ∧ sock.nodelay = true ∧
      sock.tlsWrapped = client.config.tls.enabled := by
  have e : PreconnectStrategy.init.prepare n client ctr =
      PreconnectStrategy.prepareLoop
        { sockets := [], sessions := [],
          host := client.config.host, port := client.config.port,
          use_tls := client.config.tls.enabled,
          verify_cert := client.config.tls.verify_cert } ctr n := rfl
  obtain ⟨h1, h2, h3⟩ := preconnect_prepareLoop_spec n
    { sockets := [], sessions := [],
      host := client.config.host, port := client.config.port,
      use_tls := client.config.tls.enabled,
      verify_cert := client.config.tls.verify_cert } ctr
  have hsock : ((PreconnectStrategy.init.prepare n client ctr).1).sockets =
      List.replicate n
        { connected := true, nodelay := true,
          tlsWrapped := client.config.tls.enabled } := by
    rw [e, h1]; simp
  have hsess : ((PreconnectStrategy.init.prepare n client ctr).1).sessions =
      (List.range n).map (fun i => ({ sid := ctr + i } : PySession)) := by
    rw [e, h2]; simp
  refine ⟨?_, ?_, ?_, ?_⟩
  · rw [hsock]; simp
  · rw [hsess]; simp
  · rw [hsock]; simpa using hn
  · intro sock hmem
    rw [hsock] at hmem
    have := List.eq_of_mem_replicate hmem
    subst this
    exact ⟨rfl, rfl, rfl⟩

/-- C4, witness: three workers against a TLS target get three sockets, each
TLS-wrapped. -/
theorem C4_preconnect_prepare_witness :
    ((PreconnectStrategy.init.prepare 3 sampleTlsClient 0).1).sockets.length = 3 ∧
    ∀ sock ∈ ((PreconnectStrategy.init.prepare 3 sampleTlsClient 0).1).sockets,
      sock.tlsWrapped = true := by
  have h := C4_preconnect_prepare 3 sampleTlsClient 0 (by decide)
  exact ⟨h.1, fun sock hmem => (h.2.2.2 sock hmem).2.2⟩

/-- C9: after `prepare(N, client)` on a fresh preconnect strategy,
`get_session` raises `IndexError` for every `thread_id ≥ N`, returns the
dedicated prepared session of each `thread_id < N` (distinct threads get
distinct sessions), and after `cleanup` every `thread_id` raises
`IndexError` because both lists are emptied. -/
theorem C9_preconnect_get_session (n : Nat) (client : HTTPClient) (ctr : Nat) :
    (∀ tid, n ≤ tid →
      ((PreconnectStrategy.init.prepare n client ctr).1).get_session tid =
        Except.error "IndexError") ∧
    (∀ tid, tid < n →
      ((PreconnectStrategy.init.prepare n client ctr).1).get_session tid =
        Except.ok { sid := ctr + tid }) ∧
    (∀ i j, i < n → j < n → i ≠ j →
      ((PreconnectStrategy.init.prepare n client ctr).1).get_session i ≠
        ((PreconnectStrategy.init.prepare n client ctr).1).get_session j) ∧
    (∀ tid,
      ((((PreconnectStrategy.init.prepare n client ctr).1).cleanup).1).get_session tid =
        Except.error "IndexError") := by
  have e : PreconnectStrategy.init.prepare n client ctr =
      PreconnectStrategy.prepareLoop
        { sockets := [], sessions := [],
          host := client.config.host, port := client.config.port,
          use_tls := client.config.tls.enabled,
          verify_cert := client.config.tls.verify_cert } ctr n := rfl
  obtain ⟨h1, h2, h3⟩ := preconnect_prepareLoop_spec n
    { sockets := [], sessions := [],
      host := client.config.host, port := client.config.port,
      use_tls := client.config.tls.enabled,
      verify_cert := client.config.tls.verify_cert } ctr
  have hsess : ((PreconnectStrategy.init.prepare n client ctr).1).sessions =
      (List.range n).map (fun i => ({ sid := ctr + i } : PySession)) := by
    rw [e, h2]; simp
  have hlen : ((PreconnectStrategy.init.prepare n client ctr).1).sessions.length = n := by
    rw [hsess]; simp
  have hget : ∀ tid, tid < n →
      ((PreconnectStrategy.init.prepare n client ctr).1).get_session tid =
        Except.ok { sid := ctr + tid } := by
    intro tid htid
    have hnle : ¬ ((PreconnectStrategy.init.prepare n client ctr).1).sessions.length ≤ tid := by
      omega
    rw [PreconnectStrategy.get_session, dif_neg hnle]
    congr 1
    rw [← sessions_get_stamped n ctr tid htid]
    exact List.get_of_eq hsess _
  refine ⟨?_, hget, ?_, ?_⟩
  · intro tid htid
    have hle : ((PreconnectStrategy.init.prepare n client ctr).1).sessions.length ≤ tid := by
      omega
    rw [PreconnectStrategy.get_session, dif_pos hle]
  · intro i j hi hj hne heq
    rw [hget i hi, hget j hj] at heq
    simp only [Except.ok.injEq, PySession.mk.injEq] at heq
    omega
  · intro tid
    have hz : ((((PreconnectStrategy.init.prepare n client ctr).1).cleanup).1).sessions = [] := rfl
    have hle : ((((PreconnectStrategy.init.prepare n client ctr).1).cleanup).1).sessions.length ≤ tid := by
      rw [hz]; exact Nat.zero_le tid
    rw [PreconnectStrategy.get_session, dif_pos hle]

/-- C9, witness: with two prepared workers, index 5 raises, index 1 gets the
second stamped session, and after cleanup even index 0 raises. -/
theorem C9_preconnect_get_session_witness :
    ((PreconnectStrategy.init.prepare 2 sampleClient 0).1).get_session 5 =
      Except.error "IndexError" ∧
    ((PreconnectStrategy.init.prepare 2 sampleClient 0).1).get_session 1 =
      Except.ok { sid := 1 } ∧
    ((((PreconnectStrategy.init.prepare 2 sampleClient 0).1).cleanup).1).get_session 0 =
      Except.error "IndexError" := by
  have h := C9_preconnect_get_session 2 sampleClient 0
  exact ⟨h.1 5 (by decide), h.2.1 1 (by decide), h.2.2.2 0⟩

/-- C1, counterexample: on the body `42` with the groupless pattern `\d+`,
the extractor returns the whole match as the uncoerced string `"42"`, while
the claim (coercion in both branches, as in `extractSpecC1`) would return
the integer 42. -/
theorem C1_counterexample :
    RegExExtractor.extract { text := "42", jsonBody := none } "\\d+" =
      Except.ok (some (PyVal.str "42")) ∧
    extractSpecC1 { text := "42", jsonBody := none } "\\d+" =
      Except.ok (some (PyVal.int 42)) ∧
    PyVal.str "42" ≠ PyVal.int 42 :=
  ⟨rfl, rfl, fun h => PyVal.noConfusion h⟩

/-- C1, amended: `extract` compiles `pattern_data` and searches the response
body; on a match it returns group 1 when the pattern has capture groups —
type-coerced in the order boolean, then integer, then float, then string —
and otherwise returns the whole match uncoerced, as a string; no match
yields nothing. -/
theorem C1_regex_extract_amended (response : Response) (pattern : String)
    (compiled : RExp) (hc : compileRegex pattern = some compiled) :
    (reSearch compiled response.text = none →
      RegExExtractor.extract response pattern = Except.ok none) ∧
    (∀ whole g1 gs, reSearch compiled response.text = some (whole, g1 :: gs) →
      RegExExtractor.extract response pattern =
        Except.ok (some (RegExExtractor.convert_type g1))) ∧
    (∀ whole, reSearch compiled response.text = some (whole, []) →
      RegExExtractor.extract response pattern =
        Except.ok (some (PyVal.str whole))) ∧
    (∀ v : String,
      (pyLower v = "true" → RegExExtractor.convert_type v = PyVal.bool true) ∧
      (pyLower v = "false" → RegExExtractor.convert_type v = PyVal.bool false) ∧
      (pyLower v ≠ "true" → pyLower v ≠ "false" → ∀ m, pyInt? v = some m →
        RegExExtractor.convert_type v = PyVal.int m) ∧
      (pyLower v ≠ "true" → pyLower v ≠ "false" → pyInt? v = none →
        ∀ f, pyFloat? v = some f →
          RegExExtractor.convert_type v = PyVal.float f) ∧
      (pyLower v ≠ "true" → pyLower v ≠ "false" → pyInt? v = none →
        pyFloat? v = none →
          RegExExtractor.convert_type v = PyVal.str v)) := by
  refine ⟨?_, ?_, ?_, ?_⟩
  · intro hs
    simp [RegExExtractor.extract, hc, hs]
  · intro whole g1 gs hs
    simp [RegExExtractor.extract, hc, hs]
  · intro whole hs
    simp [RegExExtractor.extract, hc, hs]
  · intro v
    refine ⟨?_, ?_, ?_, ?_, ?_⟩
    · intro hv; simp [RegExExtractor.convert_type, hv]
    · intro hv; simp [RegExExtractor.convert_type, hv]
    · intro hv1 hv2 m hm
      simp [RegExExtractor.convert_type, hv1, hv2, hm]
    · intro hv1 hv2 hm f hf
      simp [RegExExtractor.convert_type, hv1, hv2, hm, hf]
    · intro hv1 hv2 hm hf
      simp [RegExExtractor.convert_type, hv1, hv2, hm, hf]

/-- C1, witness for the amended theorem: the grouped pattern `(\d+)` on
`abc 42` yields the coerced integer 42. -/
theorem C1_regex_extract_amended_witness :
    RegExExtractor.extract { text := "abc 42", jsonBody := none } "(\\d+)" =
      Except.ok (some (PyVal.int 42)) := by
  have h := (C1_regex_extract_amended { text := "abc 42", jsonBody := none }
      "(\\d+)" (RExp.group (RExp.plus RAtom.digit)) rfl).2.1 "42" "42" [] rfl
  exact h

/-- Under error-free extraction, `extract_all` returns the entry list built
by `extractValueD` in input order. -/
lemma extract_all_ok (response : Response) :
    ∀ (extracts : List (String × ExtractPattern)),
      (∀ e ∈ extracts, exOk (extractValue response e.2) = true) →
      extract_all response extracts =
        Except.ok (extracts.map (fun e => (e.1, extractValueD response e.2))) := by
  intro extracts
  induction extracts with
  | nil => intro _; rfl
  | cons head rest ih =>
    intro hok
    obtain ⟨name, pat⟩ := head
    have hhead := hok (name, pat) (List.mem_cons_self _ _)
    cases hge : get_extractor pat.pattern_type with
    | error err =>
      exfalso
      rw [extractValue, hge] at hhead
      simp [exOk] at hhead
    | ok cls =>
      cases hex : cls.extract response pat.pattern_data with
      | error err =>
        exfalso
        rw [extractValue, hge] at hhead
        simp [hex, exOk] at hhead
      | ok v =>
        have htail := ih (fun e he => hok e (List.mem_cons_of_mem _ he))
        simp only [extract_all, hge, hex, htail, List.map_cons]
        simp [extractValueD, extractValue, hge, hex]

/-- C8, counterexample: with every `pattern_type` registered, `extract_all`
still fails to return a mapping when a pattern is an invalid regular
expression — here the single pattern `(`, which CPython rejects — so the
claim as universally stated is false. -/
theorem C8_counterexample :
    get_extractor "regex" = Except.ok BaseExtractor.regexE ∧
    extract_all { text := "x", jsonBody := none }
      [("x", { pattern_type := "regex", pattern_data := "(" })] =
      Except.error "re.error" :=
  ⟨rfl, rfl⟩

/-- C8, amended: for every response and extracts mapping whose entries all
extract without raising (in particular all pattern types registered),
`extract_all` returns a mapping in input order whose key list equals the
extracts key list, each name bound to the value its extractor produced, and
names whose pattern produced nothing are still present, bound to the absent
value. -/
theorem C8_extract_all_amended (response : Response)
    (extracts : List (String × ExtractPattern))
    (hok : ∀ e ∈ extracts, exOk (extractValue response e.2) = true) :
    extract_all response extracts =
      Except.ok (extracts.map (fun e => (e.1, extractValueD response e.2))) ∧
    (extracts.map (fun e => (e.1, extractValueD response e.2))).map Prod.fst =
      extracts.map Prod.fst ∧
    ∀ e ∈ extracts, extractValue response e.2 = Except.ok none →
      (e.1, (none : Option PyVal)) ∈
        extracts.map (fun e => (e.1, extractValueD response e.2)) := by
  refine ⟨extract_all_ok response extracts hok, ?_, ?_⟩
  · rw [List.map_map]
    rfl
  · intro e he hnone
    refine List.mem_map.mpr ⟨e, he, ?_⟩
    simp [extractValueD, hnone]

/-- C8, witness: three entries — a matching regex with a group, a regex that
matches nothing, and a JSON path — come back as a mapping on the same keys,
with the non-matching name still present and bound to the absent value. -/
theorem C8_extract_all_amended_witness :
    extract_all { text := "ok true", jsonBody := some (PyVal.dict [("a", PyVal.int 5)]) }
      [("t", { pattern_type := "regex", pattern_data := "(true)" }),
       ("m", { pattern_type := "regex", pattern_data := "zzz" }),
       ("a", { pattern_type := "jpath", pattern_data := "a" })] =
      Except.ok [("t", some (PyVal.bool true)), ("m", none), ("a", some (PyVal.int 5))] := by
  have h := (C8_extract_all_amended
      { text := "ok true", jsonBody := some (PyVal.dict [("a", PyVal.int 5)]) }
      [("t", { pattern_type := "regex", pattern_data := "(true)" }),
       ("m", { pattern_type := "regex", pattern_data := "zzz" }),
       ("a", { pattern_type := "jpath", pattern_data := "a" })]
      (by decide)).1
  exact h

end Treco
